import Mathlib

/-!
Verification of the Student Academic Guidance Engine's coordination core.

This file gives a shallow embedding of the repository's state-merge
function (`src/utils/reducers.py`), coordinator-response parsing
(`src/utils/context.py`), the agent executor
(`src/executor/agent_executor.py`) and the worker `__call__` wrappers
(`src/agents/planner.py`, `notewriter.py`, `advisor.py`), and proves
properties of those definitions.

Python dictionaries are modelled as insertion-ordered association lists
`List (String × Value)`; dictionary assignment `d[k] = v` updates the
first occurrence of `k` in place and otherwise appends, matching the
insertion-order semantics of Python dicts.
-/

set_option maxHeartbeats 1000000

/-- JSON-like values occurring in the shared state: strings, numbers,
lists, and nested dicts (the only case `dict_reducer` inspects). -/
inductive Value where
  | str (s : String)
  | num (n : Int)
  | list (xs : List Value)
  | dict (d : List (String × Value))

/-- First-match lookup, the semantics of `d[k]` / `k in d` on Python
dicts (whose keys are unique). -/
def lookup {α : Type} : List (String × α) → String → Option α
  | [], _ => none
  | (k', v) :: rest, k => if k' = k then some v else lookup rest k

/-- Python dict assignment `d[k] = v`: replace the value at the first
occurrence of `k`, keeping its position, else append `(k, v)`. -/
def setKey {α : Type} : List (String × α) → String → α → List (String × α)
  | [], k, v => [(k, v)]
  | (k', v') :: rest, k, v =>
      if k' = k then (k, v) :: rest else (k', v') :: setKey rest k v

/-- The key sequence of an association list. -/
def keys {α : Type} (d : List (String × α)) : List String :=
  d.map Prod.fst

/-- Extract the entries of a dict value, `none` for anything else:
this is the `isinstance(·, dict)` test of the Python source. -/
def asDict : Option Value → Option (List (String × Value))
  | some (Value.dict d) => some d
  | _ => none

/-- Embedding of `dict_reducer` (src/utils/reducers.py lines 6-28):
start from a copy of `dict1`, then for each `(key, value)` of `dict2`
in order, recursively merge when both the existing entry and `value`
are dicts, otherwise overwrite with `value`. -/
def dict_reducer : List (String × Value) → List (String × Value) → List (String × Value)
  | merged, [] => merged
  | merged, (key, Value.dict s2) :: rest =>
      match asDict (lookup merged key) with
      | some s1 => dict_reducer (setKey merged key (Value.dict (dict_reducer s1 s2))) rest
      | none => dict_reducer (setKey merged key (Value.dict s2)) rest
  | merged, (key, value) :: rest =>
      dict_reducer (setKey merged key value) rest
termination_by _ d2 => sizeOf d2
decreasing_by
  all_goals first
    | (simp_wf; omega)
    | simp_wf

/-- The per-entry value written by one step of `dict_reducer`:
recursive merge when both sides are dicts, plain overwrite otherwise. -/
def mergeEntry (d : List (String × Value)) (k : String) (v : Value) : Value :=
  match asDict (lookup d k), v with
  | some s1, Value.dict s2 => Value.dict (dict_reducer s1 s2)
  | _, _ => v

theorem dict_reducer_nil (d : List (String × Value)) : dict_reducer d [] = d := by
  simp [dict_reducer]

theorem dict_reducer_cons (d : List (String × Value)) (k : String) (v : Value)
    (rest : List (String × Value)) :
    dict_reducer d ((k, v) :: rest) =
      dict_reducer (setKey d k (mergeEntry d k v)) rest := by
  cases v <;> cases h : asDict (lookup d k) <;>
    simp [dict_reducer, mergeEntry, h]

theorem lookup_setKey_self {α : Type} (d : List (String × α)) (k : String) (v : α) :
    lookup (setKey d k v) k = some v := by
  induction d with
  | nil => simp [setKey, lookup]
  | cons hd tl ih =>
      obtain ⟨k', v'⟩ := hd
      by_cases h : k' = k <;> simp [setKey, lookup, h, ih]

theorem lookup_setKey_ne {α : Type} (d : List (String × α)) (k k' : String) (v : α)
    (hne : k' ≠ k) : lookup (setKey d k v) k' = lookup d k' := by
  have hk : k ≠ k' := Ne.symm hne
  induction d with
  | nil => simp [setKey, lookup, hk]
  | cons hd tl ih =>
      obtain ⟨k0, v0⟩ := hd
      by_cases h : k0 = k
      · subst h
        simp [setKey, lookup, hk]
      · simp [setKey, lookup, h, ih]

theorem mem_keys_setKey {α : Type} (d : List (String × α)) (k k' : String) (v : α) :
    k' ∈ keys (setKey d k v) ↔ k' ∈ keys d ∨ k' = k := by
  induction d with
  | nil => simp [setKey, keys]
  | cons hd tl ih =>
      obtain ⟨k0, v0⟩ := hd
      by_cases h : k0 = k
      · subst h
        simp [setKey, keys]
        tauto
      · simp [setKey, keys, h] at ih ⊢
        tauto

theorem lookup_eq_none_iff {α : Type} (d : List (String × α)) (k : String) :
    lookup d k = none ↔ k ∉ keys d := by
  induction d with
  | nil => simp [lookup, keys]
  | cons hd tl ih =>
      obtain ⟨k0, v0⟩ := hd
      by_cases h : k0 = k
      · subst h
        simp [lookup, keys]
      · simp [lookup, keys, h, Ne.symm h, ih]

theorem mem_keys_of_lookup {α : Type} (d : List (String × α)) (k : String) (v : α)
    (h : lookup d k = some v) : k ∈ keys d := by
  by_contra hk
  rw [← lookup_eq_none_iff] at hk
  rw [h] at hk
  exact Option.noConfusion hk

/-- Key-set behaviour of the merge: a key is present in the result iff
it is present in one of the two inputs. -/
theorem mem_keys_dict_reducer (d2 : List (String × Value)) :
    ∀ d1 k, k ∈ keys (dict_reducer d1 d2) ↔ k ∈ keys d1 ∨ k ∈ keys d2 := by
  induction d2 with
  | nil => intro d1 k ; simp [dict_reducer_nil, keys]
  | cons hd tl ih =>
      intro d1 k
      obtain ⟨k0, v0⟩ := hd
      rw [dict_reducer_cons, ih]
      rw [mem_keys_setKey]
      simp [keys]
      tauto

/-- Pointwise characterisation of the merge: for a key also present in
`d2`, the result holds `d2`'s value, except that two dict values are
merged recursively; keys only in `d1` keep `d1`'s value. -/
theorem lookup_dict_reducer (d2 : List (String × Value)) (h : (keys d2).Nodup) :
    ∀ d1 k, lookup (dict_reducer d1 d2) k =
      match lookup d2 k with
      | none => lookup d1 k
      | some v2 =>
        match asDict (lookup d1 k), v2 with
        | some s1, Value.dict s2 => some (Value.dict (dict_reducer s1 s2))
        | _, _ => some v2 := by
  induction d2 with
  | nil => intro d1 k ; simp [dict_reducer_nil, lookup]
  | cons hd tl ih =>
      intro d1 k
      obtain ⟨k0, v0⟩ := hd
      have h' : (k0 :: keys tl).Nodup := by
        simpa [keys] using h
      have hnd : (keys tl).Nodup := (List.nodup_cons.mp h').2
      have hk0 : k0 ∉ keys tl := (List.nodup_cons.mp h').1
      rw [dict_reducer_cons, ih hnd]
      by_cases hk : k = k0
      · subst hk
        have htl : lookup tl k = none := (lookup_eq_none_iff tl k).mpr hk0
        rw [htl]
        simp only [lookup_setKey_self]
        simp only [lookup, if_pos rfl]
        cases ha : asDict (lookup d1 k) <;> cases v0 <;> simp [mergeEntry, ha]
      · have hset : lookup (setKey d1 k0 (mergeEntry d1 k0 v0)) k = lookup d1 k :=
          lookup_setKey_ne d1 k0 k _ hk
        rw [hset]
        simp only [lookup, if_neg (Ne.symm hk)]

theorem mergeEntry_of_none (d : List (String × Value)) (k : String) (v : Value)
    (h : lookup d k = none) : mergeEntry d k v = v := by
  cases v <;> simp [mergeEntry, h, asDict]

theorem setKey_append_of_not_mem {α : Type} (d : List (String × α)) (k : String) (v : α)
    (h : k ∉ keys d) : setKey d k v = d ++ [(k, v)] := by
  induction d with
  | nil => simp [setKey]
  | cons hd tl ih =>
      obtain ⟨k0, v0⟩ := hd
      simp [keys] at h
      simp [setKey, Ne.symm h.1, ih (by simp [keys, h.2])]

theorem lookup_append_left {α : Type} (a b : List (String × α)) (k : String) (v : α)
    (h : lookup a k = some v) : lookup (a ++ b) k = some v := by
  induction a with
  | nil => simp [lookup] at h
  | cons hd tl ih =>
      obtain ⟨k0, v0⟩ := hd
      by_cases hk : k0 = k
      · subst hk
        simp [lookup] at h ⊢
        exact h
      · simp [lookup, hk] at h ⊢
        exact ih h

theorem lookup_append_right {α : Type} (a b : List (String × α)) (k : String)
    (h : k ∉ keys a) : lookup (a ++ b) k = lookup b k := by
  induction a with
  | nil => simp
  | cons hd tl ih =>
      obtain ⟨k0, v0⟩ := hd
      simp [keys] at h
      simp [lookup, Ne.symm h.1, ih (by simp [keys, h.2])]

/-- On key-disjoint inputs the merge is literally concatenation:
`dict1` is copied unchanged and each entry of `dict2` is appended. -/
theorem dict_reducer_disjoint_append :
    ∀ b : List (String × Value), (keys b).Nodup →
      ∀ a, (∀ k, k ∈ keys b → k ∉ keys a) → dict_reducer a b = a ++ b := by
  intro b
  induction b with
  | nil => intro _ a _ ; simp [dict_reducer_nil]
  | cons hd tl ih =>
      intro hb a hdisj
      obtain ⟨k0, v0⟩ := hd
      have h' : (k0 :: keys tl).Nodup := by
        simpa [keys] using hb
      have hk0tl : k0 ∉ keys tl := (List.nodup_cons.mp h').1
      have hk0a : k0 ∉ keys a := hdisj k0 (by simp [keys])
      have hla : lookup a k0 = none := (lookup_eq_none_iff _ _).mpr hk0a
      rw [dict_reducer_cons, mergeEntry_of_none a k0 v0 hla,
        setKey_append_of_not_mem a k0 v0 hk0a]
      rw [ih (List.nodup_cons.mp h').2 (a ++ [(k0, v0)]) ?_]
      · simp
      · intro k hktl
        have hka : k ∉ keys a := hdisj k (by simp [keys] ; right ; simpa [keys] using hktl)
        have hkk0 : k ≠ k0 := by
          intro hkk
          subst hkk
          exact hk0tl hktl
        have hkeys : keys (a ++ [(k0, v0)]) = keys a ++ [k0] := by simp [keys]
        rw [hkeys]
        simp only [List.mem_append, List.mem_singleton]
        rintro (h1 | h2)
        · exact hka h1
        · exact hkk0 h2

/-- Claim C1: for every pair of maps `old` and `new` (well-formed, so
`new` has no duplicate keys), `dict_reducer old new` has as key set the
union of the two key sets; for a key whose values in both inputs are
dicts the values are merged recursively, and for any other key present
in `new`, `new`'s value replaces `old`'s (non-dict leaves are replaced,
never concatenated), while keys only in `old` keep `old`'s value.
`dict_reducer` is a total pure Lean function, so it never fails on
well-formed maps and mutates neither argument. -/
theorem C1_dict_reducer_merge_spec (old new : List (String × Value))
    (h : (keys new).Nodup) :
    (∀ k, k ∈ keys (dict_reducer old new) ↔ k ∈ keys old ∨ k ∈ keys new) ∧
    (∀ k, lookup (dict_reducer old new) k =
      match lookup new k with
      | none => lookup old k
      | some v2 =>
        match asDict (lookup old k), v2 with
        | some s1, Value.dict s2 => some (Value.dict (dict_reducer s1 s2))
        | _, _ => some v2) :=
  ⟨fun k => mem_keys_dict_reducer new old k, fun k => lookup_dict_reducer new h old k⟩

/-- Witness for C1 at the docstring's own example inputs. -/
theorem C1_dict_reducer_merge_spec_witness :
    (keys [("a", Value.dict [("y", Value.num 2)]), ("c", Value.num 3)]).Nodup ∧
    ((∀ k, k ∈ keys (dict_reducer
        [("a", Value.dict [("x", Value.num 1)]), ("b", Value.num 2)]
        [("a", Value.dict [("y", Value.num 2)]), ("c", Value.num 3)]) ↔
        k ∈ keys [("a", Value.dict [("x", Value.num 1)]), ("b", Value.num 2)] ∨
        k ∈ keys [("a", Value.dict [("y", Value.num 2)]), ("c", Value.num 3)]) ∧
    (∀ k, lookup (dict_reducer
        [("a", Value.dict [("x", Value.num 1)]), ("b", Value.num 2)]
        [("a", Value.dict [("y", Value.num 2)]), ("c", Value.num 3)]) k =
      match lookup [("a", Value.dict [("y", Value.num 2)]), ("c", Value.num 3)] k with
      | none => lookup [("a", Value.dict [("x", Value.num 1)]), ("b", Value.num 2)] k
      | some v2 =>
        match asDict (lookup [("a", Value.dict [("x", Value.num 1)]), ("b", Value.num 2)] k), v2 with
        | some s1, Value.dict s2 => some (Value.dict (dict_reducer s1 s2))
        | _, _ => some v2)) :=
  ⟨by simp [keys],
   C1_dict_reducer_merge_spec
     [("a", Value.dict [("x", Value.num 1)]), ("b", Value.num 2)]
     [("a", Value.dict [("y", Value.num 2)]), ("c", Value.num 3)]
     (by simp [keys])⟩

/-- Claim C8: for maps `a` and `b` with disjoint key sets (`b`
well-formed), `dict_reducer a b` has exactly the union of the keys of
`a` and `b`, and the value at each key is, unchanged, the value from
whichever input supplied that key. -/
theorem C8_dict_reducer_disjoint (a b : List (String × Value))
    (hb : (keys b).Nodup)
    (hd : ∀ k, k ∈ keys a → k ∉ keys b) :
    (∀ k, k ∈ keys (dict_reducer a b) ↔ k ∈ keys a ∨ k ∈ keys b) ∧
    (∀ k v, lookup a k = some v → lookup (dict_reducer a b) k = some v) ∧
    (∀ k v, lookup b k = some v → lookup (dict_reducer a b) k = some v) := by
  have heq : dict_reducer a b = a ++ b :=
    dict_reducer_disjoint_append b hb a (fun k hkb hka => hd k hka hkb)
  refine ⟨?_, ?_, ?_⟩
  · intro k
    rw [heq]
    simp [keys]
  · intro k v hv
    rw [heq]
    exact lookup_append_left a b k v hv
  · intro k v hv
    rw [heq]
    have hkb : k ∈ keys b := mem_keys_of_lookup b k v hv
    have hka : k ∉ keys a := fun hka => hd k hka hkb
    rw [lookup_append_right a b k hka]
    exact hv

/-- Witness for C8 at concrete disjoint-keyed inputs. -/
theorem C8_dict_reducer_disjoint_witness :
    (keys [("b", Value.num 2)]).Nodup ∧
    (∀ k, k ∈ keys [("a", Value.num 1)] → k ∉ keys [("b", Value.num 2)]) ∧
    ((∀ k, k ∈ keys (dict_reducer [("a", Value.num 1)] [("b", Value.num 2)]) ↔
        k ∈ keys [("a", Value.num 1)] ∨ k ∈ keys [("b", Value.num 2)]) ∧
    (∀ k v, lookup [("a", Value.num 1)] k = some v →
        lookup (dict_reducer [("a", Value.num 1)] [("b", Value.num 2)]) k = some v) ∧
    (∀ k v, lookup [("b", Value.num 2)] k = some v →
        lookup (dict_reducer [("a", Value.num 1)] [("b", Value.num 2)]) k = some v)) :=
  ⟨by simp [keys], by simp [keys],
   C8_dict_reducer_disjoint [("a", Value.num 1)] [("b", Value.num 2)]
     (by simp [keys]) (by simp [keys])⟩

/-- Claim C9: the merge is not associative: there are maps `a`, `b`,
`c` mixing dict and non-dict values at the same key for which
`merge (merge a b) c` differs from `merge a (merge b c)`. -/
theorem C9_dict_reducer_not_assoc :
    ∃ a b c : List (String × Value),
      dict_reducer (dict_reducer a b) c ≠ dict_reducer a (dict_reducer b c) := by
  refine ⟨[("k", Value.dict [("x", Value.num 1)])],
          [("k", Value.num 2)],
          [("k", Value.dict [("y", Value.num 3)])], ?_⟩
  have h1 : dict_reducer (dict_reducer
        [("k", Value.dict [("x", Value.num 1)])] [("k", Value.num 2)])
        [("k", Value.dict [("y", Value.num 3)])]
      = [("k", Value.dict [("y", Value.num 3)])] := by
    simp [dict_reducer_cons, dict_reducer_nil, mergeEntry, asDict, setKey, lookup]
  have h2 : dict_reducer [("k", Value.dict [("x", Value.num 1)])]
        (dict_reducer [("k", Value.num 2)] [("k", Value.dict [("y", Value.num 3)])])
      = [("k", Value.dict [("x", Value.num 1), ("y", Value.num 3)])] := by
    simp [dict_reducer_cons, dict_reducer_nil, mergeEntry, asDict, setKey, lookup]
  rw [h1, h2]
  intro hEq
  simp at hEq

/-- Boolean test that `pat` starts `l`. -/
def startsWithL : List Char → List Char → Bool
  | [], _ => true
  | _ :: _, [] => false
  | a :: as, b :: bs => a == b && startsWithL as bs

/-- Boolean test that `pat` occurs contiguously inside `l`. -/
def infixOfL (pat : List Char) : List Char → Bool
  | [] => pat.isEmpty
  | c :: rest => startsWithL pat (c :: rest) || infixOfL pat rest

/-- Python's substring test `pat in s`. -/
def containsSub (s pat : String) : Bool :=
  infixOfL pat.toList s.toList

/-- Python's `str.lower()` (ASCII case folding suffices for the
discriminator tokens involved). -/
def lowerStr (s : String) : String :=
  String.mk (s.toList.map Char.toLower)

/-- The structured analysis built by `parse_coordinator_response`
(src/utils/context.py): required agents, per-agent priority, the
concurrent groups and free-text reasoning. -/
structure Analysis where
  required_agents : List String
  priority : List (String × Int)
  concurrent_groups : List (List String)
  reasoning : String
deriving DecidableEq

/-- The baseline "safe default" analysis of
src/utils/context.py lines 83-88. -/
def defaultAnalysis (response : String) : Analysis :=
  { required_agents := ["PLANNER"]
  , priority := [("PLANNER", 1)]
  , concurrent_groups := [["PLANNER"]]
  , reasoning := response }

/-- Embedding of `parse_coordinator_response`
(src/utils/context.py lines 81-103): start from the safe default;
when the response shows a ReACT pattern (both "Thought:" and
"Decision:" occur), append NOTEWRITER (and replace the concurrent
groups) if "NOTEWRITER" or lowercase "note" occurs, then append
ADVISOR (priority only, no group) if "ADVISOR" or lowercase
"guidance" occurs. -/
def parse_coordinator_response (response : String) : Analysis :=
  let base := defaultAnalysis response
  if containsSub response "Thought:" && containsSub response "Decision:" then
    let a1 :=
      if containsSub response "NOTEWRITER" || containsSub (lowerStr response) "note" then
        { base with
            required_agents := base.required_agents ++ ["NOTEWRITER"]
          , priority := setKey base.priority "NOTEWRITER" 2
          , concurrent_groups := [["PLANNER", "NOTEWRITER"]] }
      else base
    if containsSub response "ADVISOR" || containsSub (lowerStr response) "guidance" then
      { a1 with
          required_agents := a1.required_agents ++ ["ADVISOR"]
        , priority := setKey a1.priority "ADVISOR" 3 }
    else a1
  else base

/-- The parse-error fallback analysis of
src/utils/context.py lines 105-112 (the `except` branch). -/
def parseErrorAnalysis : Analysis :=
  { required_agents := ["PLANNER"]
  , priority := [("PLANNER", 1)]
  , concurrent_groups := [["PLANNER"]]
  , reasoning := "Fallback due to parse error" }

/-- Claim C2 as stated is false: a response containing "NOTEWRITER" but
no ReACT markers ("Thought:"/"Decision:") yields the baseline plan, so
NOTEWRITER appears neither in required_agents nor in any group. -/
theorem C2_counterexample :
    containsSub "NOTEWRITER" "NOTEWRITER" = true ∧
    "NOTEWRITER" ∉ (parse_coordinator_response "NOTEWRITER").required_agents ∧
    ∀ g ∈ (parse_coordinator_response "NOTEWRITER").concurrent_groups,
      "NOTEWRITER" ∉ g := by
  decide

/-- Claim C2 (amended): when the response contains both ReACT markers
"Thought:" and "Decision:" and also the token "NOTEWRITER", the plan's
required_agents contains both PLANNER and NOTEWRITER, and some group in
concurrent_groups contains both ids together. -/
theorem C2_amended (response : String)
    (h1 : containsSub response "Thought:" = true)
    (h2 : containsSub response "Decision:" = true)
    (h3 : containsSub response "NOTEWRITER" = true) :
    "PLANNER" ∈ (parse_coordinator_response response).required_agents ∧
    "NOTEWRITER" ∈ (parse_coordinator_response response).required_agents ∧
    ∃ g ∈ (parse_coordinator_response response).concurrent_groups,
      "PLANNER" ∈ g ∧ "NOTEWRITER" ∈ g := by
  unfold parse_coordinator_response
  cases ha : (containsSub response "ADVISOR" || containsSub (lowerStr response) "guidance") <;>
    simp [h1, h2, h3, ha, defaultAnalysis]

/-- Witness for C2 (amended) at a concrete ReACT-style response. -/
theorem C2_amended_witness :
    containsSub "Thought: pick NOTEWRITER Decision: go" "Thought:" = true ∧
    containsSub "Thought: pick NOTEWRITER Decision: go" "Decision:" = true ∧
    containsSub "Thought: pick NOTEWRITER Decision: go" "NOTEWRITER" = true ∧
    ("PLANNER" ∈ (parse_coordinator_response "Thought: pick NOTEWRITER Decision: go").required_agents ∧
     "NOTEWRITER" ∈ (parse_coordinator_response "Thought: pick NOTEWRITER Decision: go").required_agents ∧
     ∃ g ∈ (parse_coordinator_response "Thought: pick NOTEWRITER Decision: go").concurrent_groups,
       "PLANNER" ∈ g ∧ "NOTEWRITER" ∈ g) :=
  ⟨by decide, by decide, by decide,
   C2_amended "Thought: pick NOTEWRITER Decision: go" (by decide) (by decide) (by decide)⟩

/-- Claim C7: for every response text, every agent id appearing in any
group of concurrent_groups also appears in required_agents; the same
holds for the parse-error fallback analysis. -/
theorem C7_groups_subset_required (response : String) :
    (∀ g ∈ (parse_coordinator_response response).concurrent_groups,
       ∀ a ∈ g, a ∈ (parse_coordinator_response response).required_agents) ∧
    (∀ g ∈ parseErrorAnalysis.concurrent_groups,
       ∀ a ∈ g, a ∈ parseErrorAnalysis.required_agents) := by
  constructor
  · unfold parse_coordinator_response
    cases hg : (containsSub response "Thought:" && containsSub response "Decision:") <;>
      cases hn : (containsSub response "NOTEWRITER" || containsSub (lowerStr response) "note") <;>
        cases ha : (containsSub response "ADVISOR" || containsSub (lowerStr response) "guidance") <;>
          simp [hg, hn, ha, defaultAnalysis]
  · simp [parseErrorAnalysis]

/-- Witness for C7: the single group of the baseline plan for a plain
request is indeed inside its required agents. -/
theorem C7_groups_subset_required_witness :
    "PLANNER" ∈ (parse_coordinator_response "make a schedule").required_agents :=
  (C7_groups_subset_required "make a schedule").1 ["PLANNER"] (by decide) "PLANNER" (by decide)

/-- Claim C10: every parsed analysis has exactly one concurrent group;
that group contains PLANNER; ADVISOR never appears in any group; and
when the response lacks "Thought:" or "Decision:", the result is
exactly the baseline single-PLANNER plan. -/
theorem C10_parse_structure (response : String) :
    (parse_coordinator_response response).concurrent_groups.length = 1 ∧
    (∀ g ∈ (parse_coordinator_response response).concurrent_groups, "PLANNER" ∈ g) ∧
    (∀ g ∈ (parse_coordinator_response response).concurrent_groups, "ADVISOR" ∉ g) ∧
    ((containsSub response "Thought:" && containsSub response "Decision:") = false →
      parse_coordinator_response response = defaultAnalysis response) := by
  unfold parse_coordinator_response
  cases hg : (containsSub response "Thought:" && containsSub response "Decision:") <;>
    cases hn : (containsSub response "NOTEWRITER" || containsSub (lowerStr response) "note") <;>
      cases ha : (containsSub response "ADVISOR" || containsSub (lowerStr response) "guidance") <;>
        simp [hg, hn, ha, defaultAnalysis]

/-- Witness for C10 on a marker-free response: the plan is the default. -/
theorem C10_parse_structure_witness :
    parse_coordinator_response "make a schedule" = defaultAnalysis "make a schedule" :=
  (C10_parse_structure "make a schedule").2.2.2 (by decide)

/-- The agent registry built in `AgentExecutor.__init__`
(src/executor/agent_executor.py lines 28-32). -/
def knownAgents : List String := ["PLANNER", "NOTEWRITER", "ADVISOR"]

/-- One concurrent-group pass of `AgentExecutor.execute`
(src/executor/agent_executor.py lines 62-78): tasks are created only
for group members that are both required and known, the gathered
outcomes (success or captured exception) are then zipped against the
UNFILTERED group, and each non-exception outcome is stored under the
zipped name, lowercased.  `call a` is the awaited outcome of agent
`a`'s coroutine on the current state. -/
def runGroup (call : String → Except String Value) (required : List String)
    (results : List (String × Value)) (group : List String) : List (String × Value) :=
  let names := group.filter (fun a => required.contains a && knownAgents.contains a)
  if names.isEmpty then results
  else
    (group.zip (names.map call)).foldl
      (fun acc p =>
        match p.2 with
        | Except.ok v => setKey acc (lowerStr p.1) v
        | Except.error _ => acc) results

/-- The body of `AgentExecutor.execute` inside its top-level `try`
(src/executor/agent_executor.py lines 50-92), as an `Except`
computation: reading `state["results"]` raises when the key is absent
(`hasResults = false`), groups run sequentially accumulating results,
and if nothing accumulated, one fallback invocation of PLANNER is
awaited (whose own failure propagates). -/
def executorBody (call : String → Except String Value) (hasResults : Bool)
    (required : List String) (groups : List (List String)) :
    Except String (List (String × Value)) :=
  if hasResults = false then Except.error "KeyError: results"
  else
    let results := groups.foldl (runGroup call required) []
    if results.isEmpty && knownAgents.contains "PLANNER" then
      match call "PLANNER" with
      | Except.ok v => Except.ok [("planner", v)]
      | Except.error e => Except.error e
    else Except.ok results

/-- The hard-coded emergency payload of the executor's `except` branch
(src/executor/agent_executor.py lines 97-105). -/
def emergencyOutputs : List (String × Value) :=
  [("planner", Value.dict
      [("plan", Value.str "Emergency fallback plan: Please try again or contact support.")])]

/-- `AgentExecutor.execute` seen from the caller: the `agent_outputs`
map it returns; the single top-level `try/except` replaces any error
escaping the body with the emergency payload. -/
def execute (call : String → Except String Value) (hasResults : Bool)
    (required : List String) (groups : List (List String)) : List (String × Value) :=
  match executorBody call hasResults required groups with
  | Except.ok r => r
  | Except.error _ => emergencyOutputs

/-- Planner internal step sequence (src/agents/planner.py):
calendar_analyzer, task_analyzer, then plan_generator, each merging its
namespaced result into `results` through `dict_reducer` (the reducer of
`AcademicState.results`); `llm n` is the outcome of the nth backend
call, `Except.error` for a raised backend failure.  `plan_generator`
indexes `results["profile_analysis"]` directly, so a missing key is a
raised failure. -/
def plannerSteps (llm : Nat → Except String String)
    (res0 : List (String × Value)) : Except String (List (String × Value)) := do
  let c ← llm 0
  let res1 := dict_reducer res0
    [("calendar_analysis", Value.dict [("analysis", Value.str c)])]
  let t ← llm 1
  let res2 := dict_reducer res1
    [("task_analysis", Value.dict [("analysis", Value.str t)])]
  if (lookup res2 "profile_analysis").isNone then
    Except.error "KeyError: profile_analysis"
  else do
    let p ← llm 2
    Except.ok (dict_reducer res2 [("final_plan", Value.dict [("plan", Value.str p)])])

/-- `PlannerAgent.__call__` (src/agents/planner.py lines 264-273): the
whole workflow runs inside `try`; on any failure the except branch
returns a normal `{"plan": "Error generating plan: ..."}` payload. -/
def plannerCall (llm : Nat → Except String String)
    (res0 : List (String × Value)) : Except String Value :=
  match plannerSteps llm res0 with
  | Except.ok res =>
      Except.ok (Value.dict [("plan",
        match asDict (lookup res "final_plan") with
        | some d =>
            match lookup d "plan" with
            | some v => v
            | none => Value.str "No plan generated."
        | none => Value.str "No plan generated.")])
  | Except.error e =>
      Except.ok (Value.dict [("plan", Value.str ("Error generating plan: " ++ e))])

/-- NoteWriter internal step sequence (src/agents/notewriter.py):
analyze_learning_style (which indexes
`profile["learning_preferences"]["learning_style"]` directly, so a
missing key is a raised failure) then generate_notes. -/
def noteWriterSteps (llm : Nat → Except String String)
    (profile : List (String × Value)) (res0 : List (String × Value)) :
    Except String (List (String × Value)) := do
  match asDict (lookup profile "learning_preferences") with
  | none => Except.error "KeyError: learning_preferences"
  | some prefs =>
    if (lookup prefs "learning_style").isNone then
      Except.error "KeyError: learning_style"
    else do
      let a ← llm 0
      let res1 := dict_reducer res0
        [("learning_analysis", Value.dict [("analysis", Value.str a)])]
      let n ← llm 1
      Except.ok (dict_reducer res1
        [("generated_notes", Value.dict [("notes", Value.str n)])])

/-- `NoteWriterAgent.__call__` (src/agents/notewriter.py lines
189-208): failures inside the workflow are caught and returned as a
normal `{"notes": "Error generating notes: ..."}` payload. -/
def noteWriterCall (llm : Nat → Except String String)
    (profile : List (String × Value)) (res0 : List (String × Value)) :
    Except String Value :=
  match noteWriterSteps llm profile res0 with
  | Except.ok res =>
      Except.ok (Value.dict [("notes",
        match asDict (lookup res "generated_notes") with
        | some d =>
            match lookup d "notes" with
            | some v => v
            | none => Value.str "No notes generated."
        | none => Value.str "No notes generated.")])
  | Except.error e =>
      Except.ok (Value.dict [("notes", Value.str ("Error generating notes: " ++ e))])

/-- Advisor internal step sequence (src/agents/advisor.py):
analyze_situation then generate_guidance, both reading optional state
with `.get`, so only backend failures raise. -/
def advisorSteps (llm : Nat → Except String String)
    (res0 : List (String × Value)) : Except String (List (String × Value)) := do
  let a ← llm 0
  let res1 := dict_reducer res0
    [("situation_analysis", Value.dict [("analysis", Value.str a)])]
  let g ← llm 1
  Except.ok (dict_reducer res1 [("guidance", Value.dict [("advice", Value.str g)])])

/-- `AdvisorAgent.__call__` (src/agents/advisor.py lines 186-205):
failures inside the workflow are caught and returned as a normal
`{"advice": "Error generating guidance: ..."}` payload. -/
def advisorCall (llm : Nat → Except String String)
    (res0 : List (String × Value)) : Except String Value :=
  match advisorSteps llm res0 with
  | Except.ok res =>
      Except.ok (Value.dict [("advice",
        match asDict (lookup res "guidance") with
        | some d =>
            match lookup d "advice" with
            | some v => v
            | none => Value.str "No guidance generated."
        | none => Value.str "No guidance generated.")])
  | Except.error e =>
      Except.ok (Value.dict [("advice", Value.str ("Error generating guidance: " ++ e))])

theorem snd_mem_of_mem_zip {α β : Type} :
    ∀ {l1 : List α} {l2 : List β} {p : α × β}, p ∈ l1.zip l2 → p.2 ∈ l2 := by
  intro l1
  induction l1 with
  | nil => intro l2 p h ; simp [List.zip] at h
  | cons a as ih =>
      intro l2 p h
      cases l2 with
      | nil => simp [List.zip] at h
      | cons b bs =>
          simp [List.zip] at h
          rcases h with h | h
          · subst h ; simp
          · exact List.mem_cons_of_mem b (ih h)

theorem foldl_skip_errors (pairs : List (String × Except String Value)) :
    ∀ res, (∀ p ∈ pairs, ∃ e, p.2 = Except.error e) →
      pairs.foldl
        (fun acc p =>
          match p.2 with
          | Except.ok v => setKey acc (lowerStr p.1) v
          | Except.error _ => acc) res = res := by
  induction pairs with
  | nil => intro res _ ; simp
  | cons hd tl ih =>
      intro res h
      obtain ⟨e, he⟩ := h hd (by simp)
      simp only [List.foldl_cons, he]
      exact ih res (fun p hp => h p (by simp [hp]))

theorem runGroup_all_fail (call : String → Except String Value)
    (required : List String) (res : List (String × Value)) (group : List String)
    (h : ∀ a ∈ group, (required.contains a && knownAgents.contains a) = true →
        ∃ e, call a = Except.error e) :
    runGroup call required res group = res := by
  simp only [runGroup]
  by_cases hn : (group.filter (fun a => required.contains a && knownAgents.contains a)).isEmpty
  · rw [if_pos hn]
  · rw [if_neg hn]
    apply foldl_skip_errors
    intro p hp
    have h2 := snd_mem_of_mem_zip hp
    simp only [List.mem_map] at h2
    obtain ⟨a, ha, hcall⟩ := h2
    rw [List.mem_filter] at ha
    obtain ⟨e, he⟩ := h a ha.1 ha.2
    exact ⟨e, by rw [← hcall, he]⟩

theorem foldl_runGroup_all_fail (call : String → Except String Value)
    (required : List String) (groups : List (List String))
    (h : ∀ g ∈ groups, ∀ a ∈ g,
        (required.contains a && knownAgents.contains a) = true →
        ∃ e, call a = Except.error e) :
    ∀ res, groups.foldl (runGroup call required) res = res := by
  induction groups with
  | nil => intro res ; simp
  | cons g gs ih =>
      intro res
      simp only [List.foldl_cons]
      rw [runGroup_all_fail call required res g (h g (by simp))]
      exact ih (fun g' hg' => h g' (by simp [hg'])) res

theorem plannerCall_ok (llm : Nat → Except String String)
    (res0 : List (String × Value)) :
    ∃ pv, plannerCall llm res0 = Except.ok (Value.dict [("plan", pv)]) := by
  unfold plannerCall
  cases plannerSteps llm res0 with
  | ok res => exact ⟨_, rfl⟩
  | error e => exact ⟨_, rfl⟩

/-- Claim C3 fails on the code (a slip contradicting the method's own
result-collection comments): with required_agents = ["PLANNER"] and the
single group ["NOTEWRITER", "PLANNER"], only PLANNER's task is
launched and succeeds, but `zip(group, group_results)` pairs the
unfiltered group with the filtered outcomes, so PLANNER's payload is
recorded under NOTEWRITER's key and PLANNER's own key is absent. -/
theorem C3_zip_misattribution :
    execute
      (fun a => if a = "PLANNER"
        then Except.ok (Value.dict [("plan", Value.str "planner output")])
        else Except.error "never launched")
      true ["PLANNER"] [["NOTEWRITER", "PLANNER"]]
    = [("notewriter", Value.dict [("plan", Value.str "planner output")])] := by
  rfl

/-- Claim C4 fails as stated: a backend failure inside the planner's
own step sequence is caught by `PlannerAgent.__call__`, which returns a
normal error payload, so the executor records the "planner" key rather
than leaving it absent. -/
theorem C4_counterexample :
    plannerSteps (fun _ => Except.error "LLM backend down") []
      = Except.error "LLM backend down" ∧
    lookup (execute
      (fun a => if a = "PLANNER"
        then plannerCall (fun _ => Except.error "LLM backend down") []
        else Except.error "not dispatched")
      true ["PLANNER"] [["PLANNER"]]) "planner"
    = some (Value.dict [("plan", Value.str "Error generating plan: LLM backend down")]) :=
  ⟨rfl, rfl⟩

/-- Claim C4 (amended): for each worker variant (Planner, NoteWriter,
Advisor), a failure inside the worker's own step sequence is caught by
the worker's `__call__` wrapper and converted into a normally-returned
error payload; the invocation therefore never reaches the Executor as
a raised task (and the worker's key ends up present, not absent). -/
theorem C4_amended (llm : Nat → Except String String)
    (profile res0 : List (String × Value)) (e : String) :
    (plannerSteps llm res0 = Except.error e →
      plannerCall llm res0
        = Except.ok (Value.dict [("plan", Value.str ("Error generating plan: " ++ e))])) ∧
    (noteWriterSteps llm profile res0 = Except.error e →
      noteWriterCall llm profile res0
        = Except.ok (Value.dict [("notes", Value.str ("Error generating notes: " ++ e))])) ∧
    (advisorSteps llm res0 = Except.error e →
      advisorCall llm res0
        = Except.ok (Value.dict [("advice", Value.str ("Error generating guidance: " ++ e))])) := by
  refine ⟨?_, ?_, ?_⟩ <;> intro h <;>
    simp [plannerCall, noteWriterCall, advisorCall, h]

/-- Witness for C4 (amended) with a backend that always raises. -/
theorem C4_amended_witness :
    plannerCall (fun _ => Except.error "boom") []
      = Except.ok (Value.dict [("plan", Value.str "Error generating plan: boom")]) ∧
    noteWriterCall (fun _ => Except.error "boom")
        [("learning_preferences", Value.dict [("learning_style", Value.str "visual")])] []
      = Except.ok (Value.dict [("notes", Value.str "Error generating notes: boom")]) ∧
    advisorCall (fun _ => Except.error "boom") []
      = Except.ok (Value.dict [("advice", Value.str "Error generating guidance: boom")]) :=
  ⟨(C4_amended (fun _ => Except.error "boom") [] [] "boom").1 rfl,
   (C4_amended (fun _ => Except.error "boom")
      [("learning_preferences", Value.dict [("learning_style", Value.str "visual")])] [] "boom").2.1 rfl,
   (C4_amended (fun _ => Except.error "boom") [] [] "boom").2.2 rfl⟩

/-- Claim C5: if every launched worker task in every concurrent group
fails (so no group contributes a result), and the fallback PLANNER
invocation is the real planner worker, the final agent_outputs is
exactly one entry keyed "planner" whose payload is the non-empty
`{"plan": ...}` dict produced by that one fallback invocation. -/
theorem C5_all_fail_fallback (call : String → Except String Value)
    (llm : Nat → Except String String) (res0 : List (String × Value))
    (required : List String) (groups : List (List String))
    (hfail : ∀ g ∈ groups, ∀ a ∈ g,
        (required.contains a && knownAgents.contains a) = true →
        ∃ e, call a = Except.error e)
    (hplanner : call "PLANNER" = plannerCall llm res0) :
    ∃ pv, execute call true required groups
      = [("planner", Value.dict [("plan", pv)])] := by
  obtain ⟨pv, hpv⟩ := plannerCall_ok llm res0
  refine ⟨pv, ?_⟩
  unfold execute executorBody
  rw [foldl_runGroup_all_fail call required groups hfail []]
  simp [hplanner, hpv, knownAgents]

/-- Witness for C5: one group whose sole task fails, with a working
backend for the fallback planner. -/
theorem C5_all_fail_fallback_witness :
    (∀ g ∈ [["NOTEWRITER"]], ∀ a ∈ g,
        ((["NOTEWRITER"] : List String).contains a && knownAgents.contains a) = true →
        ∃ e, (fun a => if a = "PLANNER"
            then plannerCall (fun _ => Except.ok "plan text") []
            else Except.error "task failed") a = Except.error e) ∧
    (∃ pv, execute
        (fun a => if a = "PLANNER"
          then plannerCall (fun _ => Except.ok "plan text") []
          else Except.error "task failed")
        true ["NOTEWRITER"] [["NOTEWRITER"]]
      = [("planner", Value.dict [("plan", pv)])]) := by
  constructor
  · intro g hg a ha _
    simp at hg
    subst hg
    simp at ha
    subst ha
    exact ⟨"task failed", rfl⟩
  · exact C5_all_fail_fallback
      (fun a => if a = "PLANNER"
        then plannerCall (fun _ => Except.ok "plan text") []
        else Except.error "task failed")
      (fun _ => Except.ok "plan text") [] ["NOTEWRITER"] [["NOTEWRITER"]]
      (by
        intro g hg a ha _
        simp at hg
        subst hg
        simp at ha
        subst ha
        exact ⟨"task failed", rfl⟩)
      rfl

/-- Claim C6: `execute` never propagates an error to its caller: it is
a total function, a missing `state["results"]` key (an orchestration
error) yields the emergency payload, any error escaping the body is
replaced by the emergency payload, and that payload is exactly the
hard-coded "try again later" plan attributed to the planner key. -/
theorem C6_no_exception (call : String → Except String Value)
    (required : List String) (groups : List (List String)) :
    execute call false required groups = emergencyOutputs ∧
    (∀ e, executorBody call true required groups = Except.error e →
      execute call true required groups = emergencyOutputs) ∧
    emergencyOutputs = [("planner", Value.dict
      [("plan", Value.str "Emergency fallback plan: Please try again or contact support.")])] := by
  refine ⟨?_, ?_, rfl⟩
  · simp [execute, executorBody]
  · intro e h
    simp [execute, h]

/-- Witness for C6 with a backend-down agent function. -/
theorem C6_no_exception_witness :
    executorBody (fun _ => Except.error "backend down") true [] []
      = Except.error "backend down" ∧
    execute (fun _ => Except.error "backend down") true [] [] = emergencyOutputs ∧
    execute (fun _ => Except.error "backend down") false [] [] = emergencyOutputs :=
  ⟨rfl,
   (C6_no_exception (fun _ => Except.error "backend down") [] []).2.1 "backend down" rfl,
   (C6_no_exception (fun _ => Except.error "backend down") [] []).1⟩
